import Mathlib

/-!
Shallow embedding of `src/rsvp_monitor.py` (RSVP Cigars product/price
monitor) and verification of the frozen claims about it.

Strings are modelled as Lean `String`s; where character-level scanning is
needed the underlying `List Char` (`String.data`) is used, which matches
Python's code-point view of `str`.  Functions that loop are written with a
structural fuel argument equal to the input length, which is always
sufficient because every iteration consumes at least one character; this
keeps every definition computable by kernel reduction.
-/

set_option maxRecDepth 20000

namespace RsvpMonitor

/-- Class of characters matched by `[\d,]` in the price pattern
`PRICE_RE = re.compile(r"\$[\d,]+\.\d{2}")`. -/
def priceBodyChar (c : Char) : Bool := c.isDigit || c = ','

/-- Attempt to match `PRICE_RE` (`\$[\d,]+\.\d{2}`) at the head of the
character list, returning the matched characters.  Python's backtracking on
the greedy `[\d,]+` never helps here: shrinking the run leaves a digit or
comma where the literal `.` must sit, so only the maximal run can succeed,
which is what this function tries. -/
def priceMatchAt : List Char → Option (List Char)
  | '$' :: rest =>
    let run := rest.takeWhile priceBodyChar
    if run.isEmpty then none
    else
      match rest.dropWhile priceBodyChar with
      | '.' :: d1 :: d2 :: _ =>
        if d1.isDigit && d2.isDigit then
          some ('$' :: (run ++ '.' :: d1 :: d2 :: []))
        else none
      | _ => none
  | _ => none

/-- `PRICE_RE.search`: the first match of the price pattern, scanning
left to right. -/
def priceSearch : List Char → Option (List Char)
  | [] => none
  | c :: rest =>
    match priceMatchAt (c :: rest) with
    | some m => some m
    | none => priceSearch rest

/-- Fuel-indexed worker for `PRICE_RE.findall`: after a match the scan
resumes right after the matched text (Python's non-overlapping semantics);
after a failure it advances one character. -/
def priceFindallAux : Nat → List Char → List (List Char)
  | 0, _ => []
  | _ + 1, [] => []
  | f + 1, c :: rest =>
    match priceMatchAt (c :: rest) with
    | some m => m :: priceFindallAux f (rest.drop (m.length - 1))
    | none => priceFindallAux f rest

/-- `PRICE_RE.findall`: all non-overlapping matches in order.  Fuel
`l.length` suffices since every step consumes at least one character. -/
def priceFindall (l : List Char) : List (List Char) :=
  priceFindallAux l.length l

/-- The document as seen through the queries `parse_price` makes of the
parsed soup: the text of the first element matching each of the three CSS
selectors (`span.price`, `span.price-item--sale`, `span.price-item`), and
the whole document's visible text (`soup.get_text(" ", strip=True)`).
`meta_price` records the raw content value of a structured-metadata
(e.g. microdata `itemprop="price"`) element when the document has one; the
code never queries such an element, but the field is needed to state
claims about documents that carry one. -/
structure Soup where
  meta_price : Option String
  price_span : Option String
  sale_span : Option String
  item_span : Option String
  full_text : String
deriving DecidableEq

/-- The tag chosen by
`soup.select_one("span.price") or soup.select_one("span.price-item--sale")
or soup.select_one("span.price-item")`. -/
def firstTag (s : Soup) : Option String :=
  match s.price_span with
  | some t => some t
  | none =>
    match s.sale_span with
    | some t => some t
    | none => s.item_span

/-- Tier 2 of `parse_price`: scan the whole visible text and take the
last price match; raise `ValueError("Price not found")` if there is none. -/
def fullTextScan (s : Soup) : Except String String :=
  match (priceFindall s.full_text.data).getLast? with
  | some m => Except.ok m.asString
  | none => Except.error "Price not found"

/-- `parse_price`: try the selector tags first; if the chosen tag's text
contains a price, return its first match, otherwise fall back to the
full-text scan. -/
def parse_price (s : Soup) : Except String String :=
  match firstTag s with
  | some t =>
    match priceSearch t.data with
    | some m => Except.ok m.asString
    | none => fullTextScan s
  | none => fullTextScan s

/-- Numeric value of a list of decimal digit characters. -/
def digitsVal (l : List Char) : Nat :=
  l.foldl (fun a c => 10 * a + (c.toNat - 48)) 0

/-- `Decimal(price.replace("$", "").replace(",", ""))`, restricted to the
canonical shapes this program produces: after removing every `$` and `,`
the string must read `digits "." digit digit` (all price strings in the
program come from `PRICE_RE` or the `"$#,###.##"` snapshot format and have
exactly two fraction digits).  The value is returned in cents; strings
outside this shape map to `none` (in Python, `Decimal` would raise on most
of them; exotic spellings such as exponents are outside the model and
outside every claim's hypotheses). -/
def parseCents (s : String) : Option Nat :=
  let cs := s.data.filter (fun c => c ≠ '$' && c ≠ ',')
  let intPart := cs.takeWhile Char.isDigit
  match cs.dropWhile Char.isDigit with
  | '.' :: d1 :: d2 :: [] =>
    if !intPart.isEmpty && d1.isDigit && d2.isDigit then
      some (100 * digitsVal intPart + 10 * (d1.toNat - 48) + (d2.toNat - 48))
    else none
  | _ => none

/-- Insert a comma after every three characters of a least-significant-first
digit list (fuel-indexed worker). -/
def groupThreesAux : Nat → List Char → List Char
  | 0, l => l
  | f + 1, l =>
    if l.length ≤ 3 then l
    else l.take 3 ++ ',' :: groupThreesAux f (l.drop 3)

/-- Thousands-separated decimal rendering of a natural number, as Python's
format spec `,` produces for the integer part. -/
def commaNat (m : Nat) : String :=
  let ds := (Nat.toDigits 10 m).reverse
  ((groupThreesAux ds.length ds).reverse).asString

/-- `f"${d:,}"` for a `Decimal` `d` holding `n` cents with two fraction
digits: thousands-separated integer part, then `.` and the two fraction
digits. -/
def formatCents (n : Nat) : String :=
  "$" ++ commaNat (n / 100) ++ "." ++
    String.mk [Nat.digitChar (n / 10 % 10), Nat.digitChar (n % 10)]

/-- After `-p` the pattern `-p\d+/` needs one or more digits and then,
immediately after the digit run, a slash (backtracking the greedy `\d+`
cannot move the slash onto a digit). -/
def prodAfterDigit : List Char → Bool
  | [] => false
  | c :: rest => if c = '/' then true else c.isDigit && prodAfterDigit rest

/-- Attempt to match `PRODUCT_RE = re.compile(r"-p\d+/")` at the head of
the character list. -/
def prodMatchAt : List Char → Bool
  | '-' :: 'p' :: c :: rest => c.isDigit && prodAfterDigit rest
  | _ => false

/-- `PRODUCT_RE.search(href) is not None`: some position of the string
starts a match of `-p\d+/`. -/
def prodSearch : List Char → Bool
  | [] => false
  | c :: rest => prodMatchAt (c :: rest) || prodSearch rest

/-- `BASE_URL`. -/
def BASE_URL : String := "https://rsvpcigars.com"

/-- `SEED_PAGES`: the two master catalogue pages. -/
def SEED_PAGES : List String :=
  [BASE_URL ++ "/en/cubans/", BASE_URL ++ "/en/non-cubans/"]

/-- `full = href if href.startswith("http") else BASE_URL + href`. -/
def resolve (href : String) : String :=
  if "http".data.isPrefixOf href.data then href else BASE_URL ++ href

/-- `set.add`: keep the collection duplicate-free (insertion order stands
in for Python's unspecified set order; no claim depends on it). -/
def insertUnique (l : List String) (x : String) : List String :=
  if l.contains x then l else l ++ [x]

/-- One iteration of the discovery loop of `fetch_all_products` (lines
70–78): fetch the seed page once (`site` maps a URL to the `href`s of its
anchors), keep the hrefs matching `PRODUCT_RE`, resolve them against
`BASE_URL`, and union them into the accumulated set.  The first component
accumulates the URLs fetched, in fetch order. -/
def discoverStep (site : String → List String) (acc : List String × List String)
    (seed : String) : List String × List String :=
  (acc.1 ++ [seed],
   (site seed).foldl
     (fun urls href =>
       if prodSearch href.data then insertUnique urls (resolve href) else urls)
     acc.2)

/-- Run the discovery loop over all seed pages, starting from an empty
set of fetched pages and product URLs. -/
def discover_product_urls (site : String → List String) (seeds : List String) :
    List String × List String :=
  seeds.foldl (discoverStep site) ([], [])

/-- A scraped product record: `{"title": ..., "price": ..., "url": ...}`. -/
structure Product where
  title : String
  price : String
  url : String
deriving DecidableEq

/-- A `changes["price"]` entry:
`{"title": ..., "old": ..., "new": ..., "url": ...}`. -/
structure ChangeEntry where
  title : String
  old : String
  new : String
  url : String
deriving DecidableEq

/-- The diff `{"new": [...], "price": [...]}` produced by `compare`. -/
structure Diff where
  new : List Product
  price : List ChangeEntry
deriving DecidableEq

/-- The dict comprehension `{p["title"]: p for p in old}`: looking up a
title returns the LAST product in `old` carrying it (later entries of a
dict comprehension overwrite earlier ones). -/
def old_lookup : List Product → String → Option Product
  | [], _ => none
  | p :: rest, t =>
    match old_lookup rest t with
    | some q => some q
    | none => if p.title = t then some p else none

/-- The loop body of `compare`, iterating over the `new` list in order.
A `none` result models the `decimal.InvalidOperation` exception escaping
when a price string fails to convert. -/
def compareAux (old : List Product) : List Product → Option Diff
  | [] => some ⟨[], []⟩
  | item :: rest =>
    match old_lookup old item.title with
    | none =>
      match compareAux old rest with
      | none => none
      | some d => some ⟨item :: d.new, d.price⟩
    | some op =>
      match parseCents op.price, parseCents item.price with
      | some oc, some nc =>
        match compareAux old rest with
        | none => none
        | some d =>
          if oc ≠ nc then
            some ⟨d.new, ⟨item.title, formatCents oc, formatCents nc, item.url⟩ :: d.price⟩
          else some d
      | _, _ => none

/-- `compare(old, new)`. -/
def compare (old new : List Product) : Option Diff :=
  compareAux old new

/-- One line of the "New products" section. -/
def bulletNew (p : Product) : String :=
  "• " ++ p.title ++ " – " ++ p.price ++ "  <" ++ p.url ++ ">"

/-- One line of the "Price changes" section. -/
def bulletPrice (e : ChangeEntry) : String :=
  "• " ++ e.title ++ ": " ++ e.old ++ " → **" ++ e.new ++ "**  <" ++ e.url ++ ">"

/-- Python `str.strip()` with its default whitespace set. -/
def pyStrip (s : String) : String :=
  (((s.data.dropWhile Char.isWhitespace).reverse.dropWhile Char.isWhitespace).reverse).asString

/-- `compose_discord`: render the diff section by section, join with
newlines, and fall back to a fixed sentence when the result is empty. -/
def compose_discord (changes : Diff) : String :=
  let parts : List String :=
    (if changes.new.isEmpty then [] else "**🆕 New products**" :: changes.new.map bulletNew)
      ++ (if changes.price.isEmpty then []
          else "**💲 Price changes**" :: changes.price.map bulletPrice)
  let msg := pyStrip (String.intercalate "\n" parts)
  if msg = "" then "Nothing changed, but monitor ran." else msg

/-- `MAX_LEN = 2000`, the Discord hard cap. -/
def MAX_LEN : Nat := 2000

/-- Fuel-indexed worker slicing `message[start:start+MAX_LEN]` for
`start in range(0, len(message), MAX_LEN)`; fuel `l.length` suffices since
every slice consumes at least one character. -/
def chunksOfAux : Nat → List Char → List (List Char)
  | 0, _ => []
  | _ + 1, [] => []
  | f + 1, c :: cs =>
    (c :: cs).take MAX_LEN :: chunksOfAux f ((c :: cs).drop MAX_LEN)

/-- The successive `MAX_LEN`-character slices of the message. -/
def chunksOf (l : List Char) : List (List Char) :=
  chunksOfAux l.length l

/-- Externally observable actions of one run, in order. -/
inductive Event where
  | sendChunk : String → Event
  | pause : Event
  | save : List Product → Event
  | warnNoWebhook : Event
deriving DecidableEq

/-- Errors that can escape a run. -/
inductive RunErr where
  | snapshotParse : RunErr
  | decimal : RunErr
  | delivery : RunErr
deriving DecidableEq

/-- `requests.Response.raise_for_status` raises exactly for 4xx and 5xx
status codes (the code's `if r.status_code >= 400` guard only adds a log
line before calling it). -/
def failStatus (s : Nat) : Bool := 400 ≤ s && s < 600

/-- The posting loop of `send_alert`: POST each chunk in order
(`statuses i` is the HTTP status the webhook returns to the `i`-th POST);
on a 4xx/5xx response abort the remaining chunks with the error; after a
successful POST sleep `RATE_PAUSE` when the whole message exceeds
`MAX_LEN` (`if len(message) > MAX_LEN`). -/
def send_chunks (statuses : Nat → Nat) (longMsg : Bool) :
    List (List Char) → Nat → List Event × Except RunErr Unit
  | [], _ => ([], Except.ok ())
  | c :: rest, i =>
    if failStatus (statuses i) then
      ([Event.sendChunk c.asString], Except.error RunErr.delivery)
    else
      let t := send_chunks statuses longMsg rest (i + 1)
      (Event.sendChunk c.asString :: ((if longMsg then [Event.pause] else []) ++ t.1), t.2)

/-- `send_alert(message)`: skip with a warning when the webhook is unset,
otherwise split the message into `MAX_LEN`-character chunks and POST them
sequentially. -/
def send_alert (webhookSet : Bool) (statuses : Nat → Nat) (message : String) :
    List Event × Except RunErr Unit :=
  if webhookSet then
    send_chunks statuses (decide (message.length > MAX_LEN)) (chunksOf message.data) 0
  else ([Event.warnNoWebhook], Except.ok ())

/-- The three states of `previous_products.json` the claims distinguish:
absent, present but not parseable as JSON, or a well-formed snapshot
holding a product list. -/
inductive FileState where
  | absent : FileState
  | malformed : FileState
  | valid : List Product → FileState

/-- What `load_previous` hands back to `main` on success: the literal `[]`
returned when the file is absent (falsy, so `main` substitutes an empty
product list), or the parsed snapshot. -/
inductive LoadResult where
  | emptyList : LoadResult
  | snap : List Product → LoadResult
deriving DecidableEq

/-- `load_previous()`: return `[]` when the file does not exist, otherwise
`json.load` the file — which raises `JSONDecodeError` on malformed
content (there is no `try`/`except` around it). -/
def load_previous : FileState → Except RunErr LoadResult
  | FileState.absent => Except.ok LoadResult.emptyList
  | FileState.malformed => Except.error RunErr.snapshotParse
  | FileState.valid ps => Except.ok (LoadResult.snap ps)

/-- `old_snapshot["products"] if old_snapshot else []` in `main`. -/
def prior_products : LoadResult → List Product
  | LoadResult.emptyList => []
  | LoadResult.snap ps => ps

/-- The environment a run observes: the product list assembled by a
successful `fetch_all_products()`, the snapshot file's state, whether
`DISCORD_WEBHOOK` is set, and the webhook's response statuses. -/
structure Env where
  current : List Product
  file : FileState
  webhookSet : Bool
  statuses : Nat → Nat

/-- `main()` after a successful crawl: load the previous snapshot, diff,
send an alert when the diff is non-empty, then write the new snapshot.
An exception anywhere (snapshot parse, price conversion, chunk delivery)
propagates and ends the run before any later step executes. -/
def main (env : Env) : List Event × Except RunErr Unit :=
  match load_previous env.file with
  | Except.error e => ([], Except.error e)
  | Except.ok lr =>
    match compare (prior_products lr) env.current with
    | none => ([], Except.error RunErr.decimal)
    | some diff =>
      if diff.new.isEmpty && diff.price.isEmpty then
        ([Event.save env.current], Except.ok ())
      else
        match send_alert env.webhookSet env.statuses (compose_discord diff) with
        | (evs, Except.error e) => (evs, Except.error e)
        | (evs, Except.ok _) => (evs ++ [Event.save env.current], Except.ok ())

/-! Concrete inputs used to settle individual claims. -/

/-- A single freshly discovered product (run with a non-empty diff). -/
def pA1 : Product := ⟨"A", "$10.00", "u"⟩

/-- Run state for claim C1: empty prior snapshot, one current product, the
webhook set, and a webhook that answers every POST with status 500. -/
def env1 : Env := ⟨[pA1], FileState.absent, true, fun _ => 500⟩

/-- A site whose page 2 of the first catalogue root carries a product link
that page 1 does not. -/
def site3 : String → List String := fun u =>
  if u = BASE_URL ++ "/en/cubans/" then ["/a-p1/"]
  else if u = BASE_URL ++ "/en/cubans/?page=2" then ["/b-p2/"]
  else []

/-- A document carrying both a structured-metadata price (raw content
value `4500`) and a display-markup price element reading `$3000.00`. -/
def soup4 : Soup := ⟨some "4500", some "$3000.00", none, none, "$3000.00"⟩

/-- A product list with two well-formed prices under one title. -/
def S5 : List Product := [⟨"A", "$1.00", "u"⟩, ⟨"A", "$2.00", "v"⟩]

/-- A product list with distinct titles and well-formed prices. -/
def S5w : List Product := [⟨"A", "$10.00", "u"⟩, ⟨"B", "$2,500.00", "v"⟩]

/-- A composed message of exactly 4001 characters. -/
def msg6 : String := (List.replicate 4001 'a').asString

/-- A webhook answering every POST with status 200. -/
def st6 : Nat → Nat := fun _ => 200

/-- Old-side product whose price string carries a thousands separator. -/
def p7o : Product := ⟨"A", "$1,000.00", "u"⟩

/-- New-side product with the same decimal price, no separator. -/
def p7n : Product := ⟨"A", "$1000.00", "u"⟩

/-- A document with no matching markup and two prices in its text. -/
def soup8 : Soup := ⟨none, none, none, none, "$4500.00 ... $3000.00"⟩

/-- A document whose first matching selector element has no price in its
text, while the full document text does. -/
def soup9 : Soup := ⟨none, some "Sale!", none, none, "now $5.00"⟩

/-- Old-side product, price stored without a thousands separator. -/
def p10o : Product := ⟨"A", "$1000.00", "u"⟩

/-- New-side product with a changed price. -/
def p10n : Product := ⟨"A", "$1200.00", "u"⟩

/-!  Helper lemmas shared by the claim theorems. -/

/-- Looking a title up in the old-side dict misses exactly when no old
product carries it. -/
theorem old_lookup_eq_none (S : List Product) (t : String)
    (h : t ∉ S.map Product.title) : old_lookup S t = none := by
  induction S with
  | nil => rfl
  | cons q rest ih =>
    rw [List.map_cons, List.mem_cons, not_or] at h
    have h1 : q.title ≠ t := fun e => h.1 e.symm
    simp [old_lookup, ih h.2, h1]

/-- With pairwise-distinct titles, the old-side dict maps each product's
title back to that product. -/
theorem old_lookup_self (S : List Product) (h : (S.map Product.title).Nodup) :
    ∀ p ∈ S, old_lookup S p.title = some p := by
  induction S with
  | nil => intro p hp; cases hp
  | cons q rest ih =>
    rw [List.map_cons, List.nodup_cons] at h
    intro p hp
    rcases List.mem_cons.mp hp with rfl | hp'
    · simp [old_lookup, old_lookup_eq_none rest p.title h.1]
    · simp [old_lookup, ih h.2 p hp']

/-- The comparison loop yields an empty diff whenever every item of the
new side maps back to itself in the old-side dict and every price
converts. -/
theorem compareAux_self (S : List Product) :
    ∀ T : List Product, (∀ p ∈ T, old_lookup S p.title = some p) →
      (∀ p ∈ T, (parseCents p.price).isSome) → compareAux S T = some ⟨[], []⟩ := by
  intro T
  induction T with
  | nil => intro _ _; rfl
  | cons item rest ih =>
    intro hL hP
    obtain ⟨c, hc⟩ := Option.isSome_iff_exists.mp (hP item (List.mem_cons_self item rest))
    have hrest := ih (fun p hp => hL p (List.mem_cons_of_mem _ hp))
      (fun p hp => hP p (List.mem_cons_of_mem _ hp))
    simp [compareAux, hL item (List.mem_cons_self item rest), hc, hrest]

/-- The posting loop never performs a snapshot write. -/
theorem save_not_in_send_chunks (st : Nat → Nat) (lm : Bool) :
    ∀ (cs : List (List Char)) (i : Nat) (ps : List Product),
      Event.save ps ∉ (send_chunks st lm cs i).1 := by
  intro cs
  induction cs with
  | nil => intro i ps h; simp [send_chunks] at h
  | cons c rest ih =>
    intro i ps h
    by_cases hf : failStatus (st i) = true
    · simp [send_chunks, hf] at h
    · rw [send_chunks, if_neg hf] at h
      rcases List.mem_cons.mp h with h' | h'
      · cases h'
      · rcases List.mem_append.mp h' with h'' | h''
        · cases lm <;> simp at h''
        · exact ih (i + 1) ps h''

/-- `send_alert` never performs a snapshot write. -/
theorem save_not_in_send_alert (w : Bool) (st : Nat → Nat) (m : String)
    (ps : List Product) : Event.save ps ∉ (send_alert w st m).1 := by
  cases w with
  | true => exact save_not_in_send_chunks st _ _ 0 ps
  | false => simp [send_alert]

/-- The discovery fold only ever fetches the seeds it is given. -/
theorem discover_fetched (site : String → List String) :
    ∀ (seeds : List String) (acc : List String × List String),
      (seeds.foldl (discoverStep site) acc).1 = acc.1 ++ seeds := by
  intro seeds
  induction seeds with
  | nil => intro acc; simp
  | cons s rest ih =>
    intro acc
    rw [List.foldl_cons, ih (discoverStep site acc s)]
    simp [discoverStep]

/-! The claims. -/

/-- C2 (counterexample): a malformed snapshot file does not yield an empty
prior list — `json.load` raises and the error propagates. -/
theorem claim_C2_counterexample :
    load_previous FileState.malformed = Except.error RunErr.snapshotParse := rfl

/-- C2 (amended): an absent snapshot file yields the empty prior product
list (first-run behavior), but a malformed one raises a fatal parse
error. -/
theorem claim_C2_amended :
    load_previous FileState.absent = Except.ok LoadResult.emptyList ∧
    prior_products LoadResult.emptyList = [] ∧
    load_previous FileState.malformed = Except.error RunErr.snapshotParse :=
  ⟨rfl, rfl, rfl⟩

/-- C3 (counterexample): page 2 of the first catalogue root would
contribute a new product link, yet discovery fetches only the two seed
pages and never sees that link. -/
theorem claim_C3_counterexample :
    prodSearch "/b-p2/".data = true ∧
    (discover_product_urls site3 SEED_PAGES).1 = SEED_PAGES ∧
    (BASE_URL ++ "/en/cubans/?page=2") ∉ (discover_product_urls site3 SEED_PAGES).1 ∧
    resolve "/b-p2/" ∉ (discover_product_urls site3 SEED_PAGES).2 := by
  refine ⟨rfl, rfl, ?_, ?_⟩ <;> decide

/-- C3 (amended): link discovery fetches each catalogue root exactly once
— there is no `page=N` pagination, whatever further pages would
contribute. -/
theorem claim_C3_amended (site : String → List String) :
    (discover_product_urls site SEED_PAGES).1 = SEED_PAGES := by
  rw [discover_product_urls, discover_fetched]
  rfl

/-- C4 (counterexample): on a document carrying a structured-metadata
price of 4500 and a display-markup price of `$3000.00`, extraction
returns the display-markup value, not the formatted metadata value. -/
theorem claim_C4_counterexample :
    parse_price soup4 = Except.ok "$3000.00" ∧ "$3000.00" ≠ "$4,500.00" :=
  ⟨rfl, by decide⟩

/-- C4 (amended): price extraction has no structured-metadata tier — when
a display-markup selector element matches and its text contains a price,
that price is returned regardless of any structured-metadata price the
document also carries. -/
theorem claim_C4_amended (s : Soup) (v t : String) (m : List Char)
    (_hm : s.meta_price = some v) (h2 : firstTag s = some t)
    (h3 : priceSearch t.data = some m) :
    parse_price s = Except.ok m.asString := by
  simp [parse_price, h2, h3]

/-- C4 (witness). -/
theorem claim_C4_witness : parse_price soup4 = Except.ok "$3000.00" :=
  claim_C4_amended soup4 "4500" "$3000.00" "$3000.00".data rfl rfl rfl

/-- C5 (counterexample): on a list holding two well-formed prices under
the same title, `compare(S, S)` is not empty — the last-write-wins old
lookup makes the first copy diff against the second. -/
theorem claim_C5_counterexample :
    (S5.all fun p => (parseCents p.price).isSome) = true ∧
    compare S5 S5 ≠ some ⟨[], []⟩ :=
  ⟨rfl, by decide⟩

/-- C5 (amended): for every product list with pairwise-distinct titles
whose prices are all well-formed, `compare(S, S)` yields a diff with
empty `new` and `changed` sequences. -/
theorem claim_C5_amended (S : List Product)
    (h1 : (S.map Product.title).Nodup)
    (h2 : ∀ p ∈ S, (parseCents p.price).isSome) :
    compare S S = some ⟨[], []⟩ :=
  compareAux_self S S (old_lookup_self S h1) h2

/-- C5 (witness). -/
theorem claim_C5_witness : compare S5w S5w = some ⟨[], []⟩ :=
  claim_C5_amended S5w (by decide) (by decide)

/-- C7: price comparison is by exact decimal value — two products sharing
a title whose price strings parse to the same number of cents (for
instance `"$1,000.00"` against `"$1000.00"`) produce no changed entry. -/
theorem claim_C7 (po pn : Product) (c : Nat) (ht : po.title = pn.title)
    (h1 : parseCents po.price = some c) (h2 : parseCents pn.price = some c) :
    compare [po] [pn] = some ⟨[], []⟩ := by
  simp [compare, compareAux, old_lookup, ht, h1, h2]

/-- C7 (witness). -/
theorem claim_C7_witness : compare [p7o] [p7n] = some ⟨[], []⟩ :=
  claim_C7 p7o p7n 100000 rfl rfl rfl

/-- C8: when none of the display-markup selectors matches an element and
the document text contains price matches, extraction returns the last
match in document order. -/
theorem claim_C8 (s : Soup) (m : List Char)
    (h0 : s.price_span = none) (h1 : s.sale_span = none)
    (h2 : s.item_span = none)
    (h3 : (priceFindall s.full_text.data).getLast? = some m) :
    parse_price s = Except.ok m.asString := by
  simp [parse_price, firstTag, fullTextScan, h0, h1, h2, h3]

/-- C8 (witness): text `"$4500.00 ... $3000.00"` yields `"$3000.00"`. -/
theorem claim_C8_witness : parse_price soup8 = Except.ok "$3000.00" :=
  claim_C8 soup8 "$3000.00".data rfl rfl rfl rfl

/-- C9: when the first matching selector element's text contains no price
match, extraction falls through to the full-text scan, and it raises the
price-not-found error exactly when the full document text has no match
either. -/
theorem claim_C9 (s : Soup) (t : String)
    (h1 : firstTag s = some t) (h2 : priceSearch t.data = none) :
    parse_price s = fullTextScan s ∧
    (parse_price s = Except.error "Price not found" ↔
      priceFindall s.full_text.data = []) := by
  have hfall : parse_price s = fullTextScan s := by simp [parse_price, h1, h2]
  refine ⟨hfall, ?_⟩
  rw [hfall, fullTextScan]
  cases hl : (priceFindall s.full_text.data).getLast? with
  | none =>
    simp only [List.getLast?_eq_none_iff] at hl
    simp [hl]
  | some m =>
    have : priceFindall s.full_text.data ≠ [] := by
      intro e; rw [e] at hl; cases hl
    simp [this]

/-- C9 (witness). -/
theorem claim_C9_witness :
    parse_price soup9 = fullTextScan soup9 ∧
    (parse_price soup9 = Except.error "Price not found" ↔
      priceFindall soup9.full_text.data = []) :=
  claim_C9 soup9 "Sale!" rfl rfl

/-- C10: the `old`/`new` strings of a changed entry are re-rendered from
the parsed decimal values with canonical thousands separators, not copied
from the input records. -/
theorem claim_C10 (po pn : Product) (co cn : Nat) (ht : po.title = pn.title)
    (h1 : parseCents po.price = some co) (h2 : parseCents pn.price = some cn)
    (hne : co ≠ cn) :
    compare [po] [pn] =
      some ⟨[], [⟨pn.title, formatCents co, formatCents cn, pn.url⟩]⟩ := by
  simp [compare, compareAux, old_lookup, ht, h1, h2, hne]

/-- C10 (witness): the stored string `"$1000.00"` is reported as
`"$1,000.00"` in the changed entry, differing from the snapshot string. -/
theorem claim_C10_witness :
    compare [p10o] [p10n] = some ⟨[], [⟨"A", "$1,000.00", "$1,200.00", "u"⟩]⟩ ∧
    "$1,000.00" ≠ "$1000.00" :=
  ⟨claim_C10 p10o p10n 100000 120000 rfl rfl rfl (by decide), by decide⟩

/-- C1 (counterexample): a run with a non-empty diff in which the webhook
rejects the first chunk (status 500): the error surfaces, and the snapshot
write does not happen — no `save` event is in the run's trace. -/
theorem claim_C1_counterexample :
    compare [] env1.current = some ⟨[pA1], []⟩ ∧
    (send_alert env1.webhookSet env1.statuses (compose_discord ⟨[pA1], []⟩)).2 =
      Except.error RunErr.delivery ∧
    (main env1).2 = Except.error RunErr.delivery ∧
    Event.save env1.current ∉ (main env1).1 := by
  refine ⟨rfl, rfl, rfl, ?_⟩
  decide

/-- C1 (amended): when the diff is non-empty and a chunk delivery fails,
the remaining chunk sends are aborted and the error is surfaced, but the
snapshot write does NOT proceed — the exception propagates out of `main`
before `save_snapshot` runs, so no snapshot write is executed. -/
theorem claim_C1_amended (env : Env) (lr : LoadResult) (d : Diff)
    (h1 : load_previous env.file = Except.ok lr)
    (h2 : compare (prior_products lr) env.current = some d)
    (h3 : (d.new.isEmpty && d.price.isEmpty) = false)
    (h4 : (send_alert env.webhookSet env.statuses (compose_discord d)).2 =
      Except.error RunErr.delivery) :
    (main env).2 = Except.error RunErr.delivery ∧
    ∀ ps, Event.save ps ∉ (main env).1 := by
  rcases hsa : send_alert env.webhookSet env.statuses (compose_discord d) with ⟨evs, res⟩
  rw [hsa] at h4
  simp only at h4
  subst h4
  have hmain : main env = (evs, Except.error RunErr.delivery) := by
    simp [main, h1, h2, h3, hsa]
  refine ⟨by rw [hmain], fun ps hin => ?_⟩
  rw [hmain] at hin
  have := save_not_in_send_alert env.webhookSet env.statuses (compose_discord d) ps
  rw [hsa] at this
  exact this hin

/-- C1 (witness). -/
theorem claim_C1_witness :
    (main env1).2 = Except.error RunErr.delivery ∧
    Event.save env1.current ∉ (main env1).1 := by
  have h := claim_C1_amended env1 LoadResult.emptyList ⟨[pA1], []⟩ rfl rfl rfl rfl
  exact ⟨h.1, h.2 env1.current⟩

/-- Unfolding step of the chunking loop on a non-empty message. -/
theorem chunksOfAux_ne_nil (f : Nat) (l : List Char) (h : l ≠ []) :
    chunksOfAux (f + 1) l = l.take MAX_LEN :: chunksOfAux f (l.drop MAX_LEN) := by
  cases l with
  | nil => exact absurd rfl h
  | cons c cs => rfl

/-- The chunking loop stops on the empty message. -/
theorem chunksOfAux_nil (f : Nat) : chunksOfAux f [] = [] := by
  cases f <;> rfl

/-- C6: a message of exactly 4001 characters is split into exactly three
chunks — the first 2000 characters, the next 2000, and the final one —
sent in that order, with a rate-limit pause before the 2nd and before the
3rd send (the loop also pauses once more after the final send, which the
claim does not mention and does not exclude). -/
theorem claim_C6 (msg : String) (statuses : Nat → Nat)
    (h1 : msg.length = 4001)
    (h2 : ∀ i, failStatus (statuses i) = false) :
    chunksOf msg.data =
      [msg.data.take 2000, (msg.data.drop 2000).take 2000,
       (msg.data.drop 4000).take 2000] ∧
    (msg.data.take 2000).length = 2000 ∧
    ((msg.data.drop 2000).take 2000).length = 2000 ∧
    ((msg.data.drop 4000).take 2000).length = 1 ∧
    (send_alert true statuses msg).1 =
      [Event.sendChunk (msg.data.take 2000).asString, Event.pause,
       Event.sendChunk ((msg.data.drop 2000).take 2000).asString, Event.pause,
       Event.sendChunk ((msg.data.drop 4000).take 2000).asString, Event.pause] := by
  have hd : msg.data.length = 4001 := h1
  have hne : msg.data ≠ [] := by
    intro e; rw [e] at hd; cases hd
  have hd2 : (msg.data.drop 2000).length = 2001 := by
    rw [List.length_drop, hd]
  have hne2 : msg.data.drop 2000 ≠ [] := by
    intro e; rw [e] at hd2; cases hd2
  have hdd : (msg.data.drop 2000).drop 2000 = msg.data.drop 4000 := by
    rw [List.drop_drop]
  have hd3 : (msg.data.drop 4000).length = 1 := by
    rw [List.length_drop, hd]
  have hne3 : msg.data.drop 4000 ≠ [] := by
    intro e; rw [e] at hd3; cases hd3
  have hchunks : chunksOf msg.data =
      [msg.data.take 2000, (msg.data.drop 2000).take 2000,
       (msg.data.drop 4000).take 2000] := by
    rw [chunksOf, hd]
    rw [show (4001 : Nat) = 4000 + 1 from rfl, chunksOfAux_ne_nil 4000 msg.data hne]
    rw [show (4000 : Nat) = 3999 + 1 from rfl,
      chunksOfAux_ne_nil 3999 (msg.data.drop MAX_LEN) hne2]
    rw [show (3999 : Nat) = 3998 + 1 from rfl, MAX_LEN, hdd,
      chunksOfAux_ne_nil 3998 (msg.data.drop 4000) hne3]
    have : (msg.data.drop 4000).drop 2000 = [] := by
      apply List.eq_nil_of_length_eq_zero
      rw [List.length_drop, hd3]
    rw [MAX_LEN, this, chunksOfAux_nil]
  have hlong : decide (msg.length > MAX_LEN) = true := by
    rw [h1]; rfl
  refine ⟨hchunks, ?_, ?_, ?_, ?_⟩
  · rw [List.length_take, hd]; omega
  · rw [List.length_take, hd2]; omega
  · rw [List.length_take, hd3]; omega
  · rw [send_alert, if_pos rfl, hlong, hchunks]
    simp [send_chunks, h2]

/-- C6 (witness). -/
theorem claim_C6_witness :
    msg6.length = 4001 ∧
    (send_alert true st6 msg6).1 =
      [Event.sendChunk (msg6.data.take 2000).asString, Event.pause,
       Event.sendChunk ((msg6.data.drop 2000).take 2000).asString, Event.pause,
       Event.sendChunk ((msg6.data.drop 4000).take 2000).asString, Event.pause] := by
  have hl : msg6.length = 4001 := by
    rw [msg6, List.length_asString, List.length_replicate]
  exact ⟨hl, (claim_C6 msg6 st6 hl (fun i => rfl)).2.2.2.2⟩

end RsvpMonitor
